import Mathlib

/-!
Verification development for the sidfile module of the supersid repository
(src/supersid/Code/sidfile.py).  The Python 2 source is shallowly embedded:
numeric data values are modelled as exact rationals (the verified claims do
not depend on binary floating-point rounding), Python dictionaries as
association lists, Python exceptions as an `Except` monad over an error
inductive, and Python list/numpy indexing and slicing by helpers that follow
Python semantics (negative indices, clamped slices).  Integer division in the
source is Python 2 floor division and is modelled with `Int.fdiv` / `Nat.div`.
-/

set_option maxRecDepth 8000

namespace SuperSid

/-- Python exception kinds raised by the code paths that are modelled. -/
inductive PyErr where
  | indexError
  | valueError
  | keyError
  | typeError
  | assertionError
  | zeroDivisionError
  | systemExit
deriving DecidableEq, Repr

instance {ε α : Type} [DecidableEq ε] [DecidableEq α] : DecidableEq (Except ε α) := fun a b =>
  match a, b with
  | .ok x, .ok y =>
    match decEq x y with
    | isTrue h => isTrue (by rw [h])
    | isFalse h => isFalse (fun c => h (Except.ok.inj c))
  | .error x, .error y =>
    match decEq x y with
    | isTrue h => isTrue (by rw [h])
    | isFalse h => isFalse (fun c => h (Except.error.inj c))
  | .ok _, .error _ => isFalse (fun c => Except.noConfusion c)
  | .error _, .ok _ => isFalse (fun c => Except.noConfusion c)

theorem ebind_ok {ε α β : Type} (a : α) (f : α → Except ε β) :
    (Except.ok a : Except ε α) >>= f = f a := rfl

theorem ebind_err {ε α β : Type} (e : ε) (f : α → Except ε β) :
    (Except.error e : Except ε α) >>= f = Except.error e := rfl

/-- A Python dict from string keys to string values (`self.sid_params`),
modelled as an association list where insertion overwrites. -/
def Params : Type := List (String × String)

instance : DecidableEq Params := by unfold Params; infer_instance

instance : Repr Params := by unfold Params; infer_instance

/-- Dict lookup: `m[k]` as an `Option`. -/
def pget (m : Params) (k : String) : Option String :=
  (m.find? (fun kv => kv.1 == k)).map (fun kv => kv.2)

/-- Dict lookup that raises `KeyError` when the key is absent, `m[k]`. -/
def pgetE (m : Params) (k : String) : Except PyErr String :=
  match pget m k with
  | some v => .ok v
  | none => .error .keyError

/-- Dict store `m[k] = v`: overwrites any previous binding of `k`. -/
def pinsert (m : Params) (k v : String) : Params :=
  (k, v) :: m.eraseP (fun kv => kv.1 == k)

theorem pget_pinsert_same (m : Params) (k v : String) :
    pget (pinsert m k v) k = some v := by
  simp [pget, pinsert, List.find?]

theorem find?_eraseP_ne (m : List (String × String)) (k k' : String) (h : k' ≠ k) :
    (m.eraseP (fun kv => kv.1 == k)).find? (fun kv => kv.1 == k') =
      m.find? (fun kv => kv.1 == k') := by
  induction m with
  | nil => rfl
  | cons a rest ih =>
    rw [List.eraseP_cons]
    by_cases ha : a.1 = k
    · have h1 : (a.1 == k) = true := by simp [ha]
      have h2 : (a.1 == k') = false := by simp [ha]; exact fun c => h c.symm
      simp only [h1, cond_true]
      rw [List.find?]
      simp only [h2]
    · have h1 : (a.1 == k) = false := by simp [ha]
      simp only [h1, cond_false]
      by_cases ha' : a.1 = k'
      · rw [List.find?, List.find?]
        simp only [ha', beq_self_eq_true]
      · have h2 : (a.1 == k') = false := by simp [ha']
        rw [List.find?, List.find?]
        simp only [h2]
        exact ih

theorem pget_pinsert_other (m : Params) (k v k' : String) (h : k' ≠ k) :
    pget (pinsert m k v) k' = pget m k' := by
  have h2 : (k == k') = false := by simp; exact fun c => h c.symm
  simp only [pget, pinsert, List.find?, h2]
  rw [find?_eraseP_ne m k k' h]

/-- Python list indexing `xs[i]` for a nonnegative index; raises `IndexError`
when out of bounds. -/
def pygetN {α : Type} (xs : List α) (i : Nat) : Except PyErr α :=
  if h : i < xs.length then .ok (xs.get ⟨i, h⟩) else .error .indexError

/-- Python list indexing `xs[i]` for a possibly negative index (counting from
the end); raises `IndexError` when out of bounds. -/
def pyget {α : Type} (xs : List α) (i : ℤ) : Except PyErr α :=
  let j := if i < 0 then i + xs.length else i
  if h : j.toNat < xs.length ∧ 0 ≤ j then .ok (xs.get ⟨j.toNat, h.1⟩) else .error .indexError

/-- Numpy element assignment `xs[i] = v`; raises `IndexError` out of bounds. -/
def pysetN {α : Type} (xs : List α) (i : Nat) (v : α) : Except PyErr (List α) :=
  if i < xs.length then .ok (xs.set i v) else .error .indexError

/-- Clamp one slice endpoint to `[0, L]` following Python slice semantics:
negative endpoints count from the end, then the result is clamped. -/
def sliceBound (L : Nat) (i : ℤ) : Nat :=
  min (if i < 0 then i + L else i).toNat L

/-- Python slice `xs[a:b]` (step 1). -/
def pyslice {α : Type} (xs : List α) (a b : ℤ) : List α :=
  (xs.take (sliceBound xs.length b)).drop (sliceBound xs.length a)

/-- Numpy broadcast slice assignment of a scalar, `xs[a:b] = v`. -/
def pyfill {α : Type} (xs : List α) (a b : ℤ) (v : α) : List α :=
  let s := sliceBound xs.length a
  let e := sliceBound xs.length b
  (List.range xs.length).zipWith (fun i x => if s ≤ i ∧ i < e then v else x) xs

theorem sliceBound_le (L : Nat) (i : ℤ) : sliceBound L i ≤ L :=
  Nat.min_le_right _ _

theorem sliceBound_zero (L : Nat) : sliceBound L 0 = 0 := by
  simp [sliceBound]

theorem sliceBound_len (L : Nat) : sliceBound L (L : ℤ) = L := by
  unfold sliceBound
  rw [if_neg (by omega)]
  omega

theorem sliceBound_of_le (L : Nat) (i : ℤ) (h0 : 0 ≤ i) (h : i ≤ (L : ℤ)) :
    sliceBound L i = i.toNat := by
  unfold sliceBound
  rw [if_neg (by omega)]
  omega

theorem length_pyslice {α : Type} (xs : List α) (a b : ℤ) :
    (pyslice xs a b).length = sliceBound xs.length b - sliceBound xs.length a := by
  have hb := sliceBound_le xs.length b
  simp only [pyslice, List.length_drop, List.length_take]
  omega

theorem length_pyfill {α : Type} (xs : List α) (a b : ℤ) (v : α) :
    (pyfill xs a b v).length = xs.length := by
  simp [pyfill, List.length_zipWith]

theorem pyget_ok {α : Type} (xs : List α) (i : ℤ) (h0 : 0 ≤ i) (hl : i < (xs.length : ℤ)) :
    ∃ v, pyget xs i = .ok v := by
  unfold pyget
  simp only [if_neg (by omega : ¬ i < 0)]
  rw [dif_pos ⟨by omega, h0⟩]
  exact ⟨_, rfl⟩

theorem pyget_neg_one_ok {α : Type} (xs : List α) (h : xs ≠ []) :
    ∃ v, pyget xs (-1) = .ok v := by
  have hL : 0 < xs.length := List.length_pos.2 h
  unfold pyget
  simp only [if_pos (by omega : (-1 : ℤ) < 0)]
  rw [dif_pos ⟨by omega, by omega⟩]
  exact ⟨_, rfl⟩

theorem pysetN_ok {α : Type} (xs : List α) (i : Nat) (v : α) (h : i < xs.length) :
    pysetN xs i v = .ok (xs.set i v) := by
  simp [pysetN, h]

/-- Python built-in `min` over a sequence; raises `ValueError` on an empty
sequence (as `min(dstack[i:i])` does in `filter_buffer`). -/
def pymin (xs : List ℚ) : Except PyErr ℚ :=
  match xs with
  | [] => .error .valueError
  | x :: rest => .ok (rest.foldl min x)

theorem pymin_ok (xs : List ℚ) (h : xs ≠ []) : ∃ m, pymin xs = .ok m := by
  cases xs with
  | nil => exact absurd rfl h
  | cons x rest => exact ⟨_, rfl⟩

/-- matplotlib.mlab.movavg(x, n) = numpy.convolve(x, ones(n)/n, mode = valid):
a centered moving average for n le len(x) (output length len(x)-n+1); when the
window exceeds the data, valid-mode convolution yields n-len(x)+1 outputs that
all equal sum(x)/n.  External library function, modelled from its source. -/
def movavg (x : List ℚ) (n : Nat) : List ℚ :=
  if n ≤ x.length then
    (List.range (x.length - n + 1)).map (fun j => ((x.drop j).take n).sum / n)
  else
    (List.range (n - x.length + 1)).map (fun _ => x.sum / n)

theorem length_movavg (x : List ℚ) (n : Nat) (h : n ≤ x.length) :
    (movavg x n).length = x.length - n + 1 := by
  simp [movavg, h]

/-- The final rotation step of `filter_buffer` (sidfile.py lines 323-324):
`gmt_mark = gmt_offset * (60/data_interval) * 60` (Python 2 floor division,
raising ZeroDivisionError when data_interval is 0) followed by
`hstack((daverage[gmt_mark:length], daverage[0:gmt_mark]))`. -/
def gmt_rotate (daverage : List ℚ) (length data_interval gmt_offset : ℤ) :
    Except PyErr (List ℚ) :=
  if data_interval = 0 then .error .zeroDivisionError
  else
    let gmt_mark := gmt_offset * (Int.fdiv 60 data_interval) * 60
    .ok (pyslice daverage gmt_mark length ++ pyslice daverage 0 gmt_mark)

theorem gmt_rotate_ok (dav : List ℚ) (I g : ℤ) (hI : I ≠ 0) :
    ∃ out, gmt_rotate dav dav.length I g = .ok out ∧ out.length = dav.length := by
  have hmain : gmt_rotate dav dav.length I g =
      .ok (pyslice dav (g * Int.fdiv 60 I * 60) dav.length ++
           pyslice dav 0 (g * Int.fdiv 60 I * 60)) := by
    unfold gmt_rotate
    rw [if_neg hI]
  refine ⟨_, hmain, ?_⟩
  rw [List.length_append, length_pyslice, length_pyslice, sliceBound_zero, sliceBound_len]
  have := sliceBound_le dav.length (g * (Int.fdiv 60 I) * 60)
  omega

/-- The windowed-minimum loop of `filter_buffer` (lines 311-312):
`for i in range(bema_wing, length+bema_wing): dmin[i] = min(dstack[i-bema_wing:i+bema_wing])`. -/
def minLoop (dstack : List ℚ) (wing : Nat) : List Nat → List ℚ → Except PyErr (List ℚ)
  | [], dm => .ok dm
  | i :: rest, dm => do
    let m ← pymin (pyslice dstack ((i : ℤ) - wing) ((i : ℤ) + wing))
    let dm' ← pysetN dm i m
    minLoop dstack wing rest dm'

theorem minLoop_ok (dstack : List ℚ) (wing : Nat) (idxs : List Nat) :
    ∀ dm : List ℚ,
      (∀ i ∈ idxs, i < dm.length ∧
        sliceBound dstack.length ((i : ℤ) - wing) < sliceBound dstack.length ((i : ℤ) + wing)) →
      ∃ dm', minLoop dstack wing idxs dm = .ok dm' ∧ dm'.length = dm.length := by
  induction idxs with
  | nil => exact fun dm _ => ⟨dm, rfl, rfl⟩
  | cons i rest ih =>
    intro dm hmem
    obtain ⟨hi, hwin⟩ := hmem i (List.mem_cons_self i rest)
    have hne : pyslice dstack ((i : ℤ) - wing) ((i : ℤ) + wing) ≠ [] := by
      intro hc
      have hlen := length_pyslice dstack ((i : ℤ) - wing) ((i : ℤ) + wing)
      rw [hc] at hlen
      simp at hlen
      omega
    obtain ⟨m, hm⟩ := pymin_ok _ hne
    obtain ⟨dm', hdm', hlen'⟩ := ih (dm.set i m) (by
      intro j hj
      have := hmem j (List.mem_cons_of_mem i hj)
      simpa [List.length_set] using this)
    refine ⟨dm', ?_, by simpa [List.length_set] using hlen'⟩
    rw [minLoop, hm, ebind_ok, pysetN_ok dm i m hi, ebind_ok, hdm']

/-- The extended-buffer phase of filter_buffer (lines 301-308): concatenate
the circular wings onto the raw buffer, then overwrite the left wing with
`raw_buffer[0]` and the right wing with `raw_buffer[-1]`. -/
def bema_dstack (raw_buffer : List ℚ) (bema_wing : Nat) : Except PyErr (List ℚ) := do
  let length := raw_buffer.length
  let dstack := pyslice raw_buffer ((length : ℤ) - bema_wing) length ++
                pyslice raw_buffer 0 length ++ pyslice raw_buffer 0 bema_wing
  let r0 ← pyget raw_buffer 0
  let dstack := pyfill dstack 0 bema_wing r0
  let rl ← pyget raw_buffer (-1)
  .ok (pyfill dstack ((length : ℤ) + bema_wing) ((length : ℤ) + 2 * bema_wing) rl)

/-- The windowed-minimum envelope phase of filter_buffer (lines 310-316):
run the minimum loop over positions `[wing, wing+length)`, then clamp the
envelope's wing regions to `dmin[wing]` and `dmin[length+wing-1]`. -/
def bema_dmin (dstack : List ℚ) (bema_wing length : Nat) : Except PyErr (List ℚ) := do
  let dmin ← minLoop dstack bema_wing (List.range' bema_wing length)
    (List.replicate dstack.length 0)
  let dw ← pyget dmin (bema_wing : ℤ)
  let dmin := pyfill dmin 0 bema_wing dw
  let de ← pyget dmin ((length : ℤ) + bema_wing - 1)
  .ok (pyfill dmin ((length : ℤ) + bema_wing) ((length : ℤ) + 2 * bema_wing) de)

/-- SidFile.filter_buffer (sidfile.py lines 294-325), the BEMA filter:
extend the buffer by two wings (circular content), overwrite the wings with
the edge values, take the windowed minimum over `[i-wing, i+wing)`, clamp the
wing regions of the envelope, apply `movavg` with window `2*wing+1`, then
optionally rotate by the time-zone mark. -/
def filter_buffer (raw_buffer : List ℚ) (data_interval : ℤ)
    (bema_wing : Nat := 6) (gmt_offset : ℤ := 0) : Except PyErr (List ℚ) := do
  let dstack ← bema_dstack raw_buffer bema_wing
  let dmin ← bema_dmin dstack bema_wing raw_buffer.length
  let daverage := movavg dmin (2 * bema_wing + 1)
  if gmt_offset = 0 then
    return daverage
  else
    gmt_rotate daverage raw_buffer.length data_interval gmt_offset

/-- Split a character list on every occurrence of a separator character,
Python `s.split(sep)`: always returns at least one (possibly empty) segment. -/
def splitCharAux (sep : Char) : List Char → List Char → List (List Char)
  | [], acc => [acc.reverse]
  | c :: rest, acc =>
    if c = sep then acc.reverse :: splitCharAux sep rest [] else splitCharAux sep rest (c :: acc)

/-- Python `s.split(sep)` for a one-character separator.  (Structurally
recursive so that concrete header lines evaluate inside the kernel.) -/
def splitOnC (sep : Char) (s : String) : List String :=
  (splitCharAux sep s.data []).map List.asString

/-- Python `s.strip()`. -/
def trimS (s : String) : String :=
  (((s.data.dropWhile Char.isWhitespace).reverse.dropWhile Char.isWhitespace).reverse).asString

/-- ASCII lower-casing of one character. -/
def lowerChar (c : Char) : Char :=
  if 'A' ≤ c ∧ c ≤ 'Z' then Char.ofNat (c.toNat + 32) else c

/-- Python `s.lower()` (the header keys are ASCII). -/
def lowerS (s : String) : String :=
  (s.data.map lowerChar).asString

/-- Does the string start with the given character? -/
def startsWithC (c : Char) (s : String) : Bool :=
  match s.data with
  | d :: _ => d == c
  | [] => false

/-- Python `c in s` for a single character. -/
def containsC (c : Char) (s : String) : Bool :=
  s.data.contains c

/-- Python `s[n:]`. -/
def dropC (n : Nat) (s : String) : String :=
  (s.data.drop n).asString

/-- Parse a nonempty all-digit string to a natural number (`ValueError` otherwise). -/
def parseNatDigits (s : String) : Except PyErr Nat :=
  if s.data.length > 0 ∧ s.data.all Char.isDigit then
    .ok (s.data.foldl (fun n c => n * 10 + (c.toNat - 48)) 0)
  else
    .error .valueError

/-- Python `int(s)`: strip, optional sign, digits. -/
def parseIntE (s : String) : Except PyErr ℤ :=
  let t := trimS s
  if startsWithC '-' t then
    (parseNatDigits (dropC 1 t)).map (fun n => -(n : ℤ))
  else if startsWithC '+' t then
    (parseNatDigits (dropC 1 t)).map (fun n => (n : ℤ))
  else
    (parseNatDigits t).map (fun n => (n : ℤ))

/-- Python `float(s)` restricted to plain decimal literals, modelled exactly
over the rationals (exponent notation, inf and nan are outside the modelled
regime; the verified claims do not exercise them). -/
def parseFloat (s : String) : Except PyErr ℚ :=
  let t := trimS s
  let (sign, u) : ℚ × String :=
    if startsWithC '-' t then (-1, dropC 1 t)
    else if startsWithC '+' t then (1, dropC 1 t)
    else (1, t)
  match splitOnC '.' u with
  | [ip] => (parseNatDigits ip).map (fun n => sign * (n : ℚ))
  | [ip, fp] =>
    if ip.data = [] ∧ fp.data = [] then .error .valueError
    else do
      let n ← if ip.data = [] then .ok 0 else parseNatDigits ip
      let f ← if fp.data = [] then .ok 0 else parseNatDigits fp
      .ok (sign * ((n : ℚ) + (f : ℚ) / 10 ^ fp.data.length))
  | _ => .error .valueError

/-- The two values of the class attribute `SidFile._timestamp_format`:
classic `%Y-%m-%d %H:%M:%S` and extended `%Y-%m-%d %H:%M:%S.%f`. -/
inductive TsFormat where
  | classic
  | extended
deriving DecidableEq, Repr

/-- Encode a parsed date-time as a rational number of seconds.  The calendar is
abstracted to 31-day months and 12-month years: the encoding is injective and
distinct days stay 86400 seconds apart, which is all the verified claims use
(none of them depends on real calendar arithmetic across day boundaries). -/
def encodeDT (y mo d h mi s : Nat) (frac : ℚ) : ℚ :=
  ((((y * 12 + mo) * 31 + d : Nat) : ℚ)) * 86400 + (h : ℚ) * 3600 + (mi : ℚ) * 60 + (s : ℚ) + frac

/-- datetime.strptime for the two formats used by SidFile._StringToDatetime.
A classic parse rejects fractional seconds and an extended parse requires
them, as CPython strptime does (range validation of the calendar fields is
not modelled; the verified claims only parse well-formed stamps). -/
def strptime (fmt : TsFormat) (s : String) : Except PyErr ℚ :=
  match splitOnC ' ' s with
  | [ds, ts] =>
    (match splitOnC '-' ds, splitOnC ':' ts with
     | [y, mo, d], [h, mi, sec] => do
       let yn ← parseNatDigits y
       let mon ← parseNatDigits mo
       let dn ← parseNatDigits d
       let hn ← parseNatDigits h
       let minn ← parseNatDigits mi
       match fmt with
       | .classic => do
         let sn ← parseNatDigits sec
         .ok (encodeDT yn mon dn hn minn sn 0)
       | .extended =>
         match splitOnC '.' sec with
         | [sw, fw] => do
           let sn ← parseNatDigits sw
           let fn ← parseNatDigits fw
           .ok (encodeDT yn mon dn hn minn sn ((fn : ℚ) / 10 ^ fw.data.length))
         | _ => .error .valueError
     | _, _ => .error .valueError)
  | _ => .error .valueError

/-- Does a raw file line start with the comment marker, `line[0] == "#"`? -/
def startsHash (l : String) : Bool :=
  match l.data with
  | c :: _ => c == '#'
  | [] => false

/-- One iteration of the `read_header` loop body (lines 122-126): split the
line on every `=`; when that yields exactly two tokens, store
`lower(strip(tokens[0][1:])) -> strip(tokens[1])`. -/
def headerStep (p : Params) (l : String) : Params :=
  let tokens := splitOnC '=' l
  if tokens.length = 2 then
    pinsert p (lowerS (trimS (dropC 1 (tokens.headD "")))) (trimS (tokens.getD 1 ""))
  else
    p

/-- The `read_header` loop (lines 119-126): walk the lines, stopping at the
first line that does not start with `#`, counting consumed lines. -/
def read_header_aux : Params → Nat → List String → Params × Nat
  | p, n, [] => (p, n)
  | p, n, l :: rest =>
    if startsHash l then read_header_aux (headerStep p l) (n + 1) rest else (p, n)

/-- SidFile.read_header (lines 113-126): clears sid_params, then consumes the
leading comment lines, returning the parameter map and `headerNbLines`. -/
def read_header (lines : List String) : Params × Nat :=
  read_header_aux [] 0 lines

/-- The specification-style form of the header parameter map: fold the store
step over the longest prefix of comment lines. -/
def headerParamsSpec (lines : List String) : Params :=
  (lines.takeWhile startsHash).foldl headerStep []

/-- Normalized header data produced by control_header. -/
structure HeaderInfo where
  isSuperSID : Bool
  stations : List String
  frequencies : List String
  sid_params : Params
  startTime : ℚ
  LogInterval : ℤ
deriving DecidableEq, Repr

/-- SidFile.control_header (lines 81-111).  `gIn` is the value of the shared
class attribute `SidFile._timestamp_format` on entry; line 101 overwrites it
with the classic format before `utc_starttime` is parsed, so the body never
reads `gIn`.  `utcnowDate` stands for the current UTC date used when
`utc_starttime` is absent. -/
def control_header (gIn : TsFormat) (p : Params) (utcnowDate : String) :
    Except PyErr (HeaderInfo × TsFormat) := do
  let (isSuper, stations, frequencies) ←
    (match pget p "stations" with
     | some s => do
       let f ← pgetE p "frequencies"
       Except.ok (true, splitOnC ',' s, splitOnC ',' f)
     | none =>
       match pget p "stationid" with
       | some s => do
         let f ← pgetE p "frequency"
         Except.ok (false, [s], [f])
       | none => Except.error PyErr.systemExit : Except PyErr (Bool × List String × List String))
  let p := match pget p "utc_starttime" with
    | some _ => p
    | none => pinsert p "utc_starttime" (utcnowDate ++ " 00:00:00")
  let g := TsFormat.classic
  let startTime ← strptime g ((pget p "utc_starttime").getD "")
  let (logInterval, p) ←
    (match pget p "log_interval" with
     | some v => (parseIntE v).map (fun n => (n, p))
     | none =>
       match pget p "loginterval" with
       | some v => (parseIntE v).map (fun n => (n, p))
       | none => Except.ok (5, pinsert p "log_interval" "5") : Except PyErr (ℤ × Params))
  .ok (⟨isSuper, stations, frequencies, p, startTime, logInterval⟩, g)

/-- Format detection on the first data cell (read_data lines 136-144): when
the cell contains a `-`, try the extended format then the classic format,
updating the shared `_timestamp_format` flag; otherwise leave the flag and
`is_extended` (initialized False) unchanged. -/
def detectFormat (g : TsFormat) (cell : String) : Except PyErr (Bool × TsFormat) :=
  if containsC '-' cell then
    match strptime .extended cell with
    | .ok _ => .ok (true, .extended)
    | .error _ =>
      match strptime .classic cell with
      | .ok _ => .ok (false, .classic)
      | .error e => .error e
  else
    .ok (false, g)

/-- SidFile.generate_timestamp (lines 179-187): timestamps spaced LogInterval
seconds apart starting at startTime (timedelta arithmetic is exact). -/
def generate_timestamp (start : ℚ) (interval : ℤ) (n : Nat) : List ℚ :=
  (List.range n).map (fun i => start + (i : ℚ) * (interval : ℚ))

/-- The lines numpy.loadtxt actually parses: comment lines and blank lines
are skipped. -/
def dataLines (lines : List String) : List String :=
  lines.filter (fun l => !(startsWithC '#' l) && !((trimS l).data == []))

/-- The fast-path load `loadtxt(lines, comments, delimiter, usecols=(1,))`
of a classic SID file: read only column 1 of each data line as a float. -/
def sidValueColumn (ls : List String) : Except PyErr (List ℚ) :=
  ls.mapM (fun l => do
    let c ← pygetN (splitOnC ',' l) 1
    parseFloat c)

/-- Result of SidFile.read_data: the station-major data matrix, the timestamp
vector, and the `is_extended` flag. -/
structure IngestOut where
  data : List (List ℚ)
  timestamp : List ℚ
  is_extended : Bool
deriving DecidableEq, Repr

/-- SidFile.read_data (lines 128-171).  `g` is the shared class attribute
`SidFile._timestamp_format` on entry (always the classic format, set by
control_header); detection may overwrite it and row parsing then uses it.
The branches: classic SuperSID (whole numeric block, transposed, generated
timestamps), extended SuperSID (per-row parsed timestamps), and for SID files
the slow path (parse both columns) versus the fast path (value column only,
generated timestamps), selected by the line-count / force / extended test of
lines 161-162 with Python 2 floor division. -/
def read_data (g : TsFormat) (info : HeaderInfo) (lines : List String)
    (headerNbLines : Nat) (force_read_timestamp : Bool) :
    Except PyErr (IngestOut × TsFormat) := do
  let l0 ← pygetN lines headerNbLines
  let (is_extended, g) ← detectFormat g ((splitOnC ',' l0).headD "")
  let ls := dataLines lines
  if info.isSuperSID && !is_extended then do
    let rows ← ls.mapM (fun l => (splitOnC ',' l).mapM parseFloat)
    let data := rows.transpose
    let row0 ← pygetN data 0
    .ok (⟨data, generate_timestamp info.startTime info.LogInterval row0.length, is_extended⟩, g)
  else if info.isSuperSID && is_extended then do
    let rows ← ls.mapM (fun l => do
      let cells := splitOnC ',' l
      let c0 ← pygetN cells 0
      let t ← strptime g c0
      let vs ← (cells.drop 1).mapM parseFloat
      Except.ok (t, vs))
    .ok (⟨(rows.map (fun r => r.2)).transpose, rows.map (fun r => r.1), is_extended⟩, g)
  else do
    let expected ←
      (if info.LogInterval = 0 then Except.error PyErr.zeroDivisionError
       else Except.ok (Int.fdiv (60 * 60 * 24) info.LogInterval) : Except PyErr ℤ)
    if ((lines.length : ℤ) - (headerNbLines : ℤ) != expected) || force_read_timestamp
        || is_extended then do
      let rows ← ls.mapM (fun l => do
        let cells := splitOnC ',' l
        let c0 ← pygetN cells 0
        let t ← strptime g c0
        let c1 ← pygetN cells 1
        let x ← parseFloat c1
        Except.ok (t, x))
      .ok (⟨[rows.map (fun r => r.2)], rows.map (fun r => r.1), is_extended⟩, g)
    else do
      let vals ← sidValueColumn ls
      let data := [vals]
      let row0 ← pygetN data 0
      .ok (⟨data, generate_timestamp info.startTime info.LogInterval row0.length, is_extended⟩, g)

/-- The in-memory document built by SidFile.__init__ from a file (also used
directly as the state operated on by the merge utility and the writers). -/
structure SidFile where
  sid_params : Params
  isSuperSID : Bool
  stations : List String
  frequencies : List String
  startTime : ℚ
  LogInterval : ℤ
  is_extended : Bool
  data : List (List ℚ)
  timestamp : List ℚ
deriving DecidableEq, Repr

/-- SidFile.__init__ with a filename (lines 51-63): read_header, then
control_header, then read_data.  `g` is the process-wide
`SidFile._timestamp_format` on entry; the returned TsFormat is its value
after the load. -/
def loadFile (g : TsFormat) (lines : List String) (force_read_timestamp : Bool)
    (utcnowDate : String) : Except PyErr (SidFile × TsFormat) := do
  let (params, headerNbLines) := read_header lines
  let (info, g) ← control_header g params utcnowDate
  let (out, g) ← read_data g info lines headerNbLines force_read_timestamp
  .ok (⟨info.sid_params, info.isSuperSID, info.stations, info.frequencies, info.startTime,
        info.LogInterval, out.is_extended, out.data, out.timestamp⟩, g)

/-- The dynamically-typed value returned by SidFile.get_station_data: the
empty list, a 1-D numpy slice, or the whole 2-D matrix. -/
inductive StationData where
  | empty
  | vector (v : List ℚ)
  | matrix (m : List (List ℚ))
deriving DecidableEq, Repr

/-- Column `j` of a matrix, numpy `data[:, j]` (IndexError when any row is
too short, as numpy raises on an out-of-bounds column index). -/
def npcolumn (m : List (List ℚ)) (j : Nat) : Except PyErr (List ℚ) :=
  m.mapM (fun row => pygetN row j)

/-- SidFile.get_station_data (lines 189-197): `[]` when the call sign is not
in the station list; for a SuperSID document the numpy slice `data[:, idx]`
where `idx = stations.index(stationId)`; otherwise the whole matrix. -/
def get_station_data (doc : SidFile) (stationId : String) : Except PyErr StationData :=
  if ¬ doc.stations.contains stationId then
    .ok .empty
  else if doc.isSuperSID then do
    let col ← npcolumn doc.data (doc.stations.indexOf stationId)
    .ok (.vector col)
  else
    .ok (.matrix doc.data)

/-- The polymorphic station argument of SidFile.get_station_index: an int, a
call-sign string, a dict with a call_sign entry, or an object with a
call_sign attribute. -/
inductive StationArg where
  | int (i : ℤ)
  | str (s : String)
  | dict (call_sign : String)
  | obj (call_sign : String)
deriving DecidableEq, Repr

/-- `self.stations.index(s)`: first index, ValueError when absent. -/
def listIndexE (xs : List String) (s : String) : Except PyErr Nat :=
  match xs.indexOf? s with
  | some i => .ok i
  | none => .error .valueError

/-- SidFile.get_station_index (lines 226-236): ints are range-checked with an
assert (AssertionError), the other three shapes go through list.index
(ValueError when the call sign is absent). -/
def get_station_index (doc : SidFile) (station : StationArg) : Except PyErr Nat :=
  match station with
  | .int i => if 0 ≤ i ∧ i < (doc.stations.length : ℤ) then .ok i.toNat else .error .assertionError
  | .str s => listIndexE doc.stations s
  | .dict c => listIndexE doc.stations c
  | .obj c => listIndexE doc.stations c

/-- SidFile.create_header (lines 199-224): build the header text from
sid_params with alias fallback; a missing required key raises KeyError. -/
def create_header (doc : SidFile) (isSuperSid : Bool) (log_type : String) :
    Except PyErr String := do
  let site ← (match pget doc.sid_params "site_name" with
    | some v => Except.ok v
    | none => pgetE doc.sid_params "site")
  let contact := match pget doc.sid_params "contact" with
    | some c => "# Contact = " ++ c ++ "\n"
    | none => ""
  let lon ← pgetE doc.sid_params "longitude"
  let lat ← pgetE doc.sid_params "latitude"
  let uo ← pgetE doc.sid_params "utc_offset"
  let tz ← (match pget doc.sid_params "time_zone" with
    | some v => Except.ok v
    | none => pgetE doc.sid_params "timezone")
  let ust ← pgetE doc.sid_params "utc_starttime"
  let li ← (match pget doc.sid_params "log_interval" with
    | some v => Except.ok v
    | none => pgetE doc.sid_params "loginterval")
  let mid ← (match pget doc.sid_params "monitor_id" with
    | some v => Except.ok v
    | none => pgetE doc.sid_params "monitorid")
  let variantPart ←
    (if isSuperSid then do
      let sts ← pgetE doc.sid_params "stations"
      let fqs ← pgetE doc.sid_params "frequencies"
      Except.ok ("# Stations = " ++ sts ++ "\n# Frequencies = " ++ fqs ++ "\n")
    else do
      let st ← pgetE doc.sid_params "stationid"
      let fq ← pgetE doc.sid_params "frequency"
      Except.ok ("# StationID = " ++ st ++ "\n# Frequency = " ++ fq ++ "\n")
      : Except PyErr String)
  .ok ("# Site = " ++ site ++ "\n" ++ contact ++
       "# Longitude = " ++ lon ++ "\n" ++
       "# Latitude = " ++ lat ++ "\n" ++
       "#\n" ++
       "# UTC_Offset = " ++ uo ++ "\n" ++
       "# TimeZone = " ++ tz ++ "\n" ++
       "#\n" ++
       "# UTC_StartTime = " ++ ust ++ "\n" ++
       "# LogInterval = " ++ li ++ "\n" ++
       "# LogType = " ++ log_type ++ "\n" ++
       "# MonitorID = " ++ mid ++ "\n" ++
       variantPart)

/-- SidFile.write_data_sid (lines 238-262), with the written file modelled
structurally as the header string plus the (timestamp, value) rows; the
15-decimal numeric text formatting and the `extended` timestamp text format
are not modelled (no claim depends on the digit strings).  Returns the
document after the side effect on sid_params (lines 245-247). -/
def write_data_sid (doc : SidFile) (station : StationArg) (log_type : String)
    (apply_bema : Bool := true) (extended : Bool := false) :
    Except PyErr (SidFile × String × List (ℚ × ℚ)) := do
  let iStation ← get_station_index doc station
  let doc ←
    (if doc.isSuperSID then do
      let st ← pygetN doc.stations iStation
      let fq ← pygetN doc.frequencies iStation
      Except.ok { doc with sid_params := pinsert (pinsert doc.sid_params "stationid" st) "frequency" fq }
    else Except.ok doc : Except PyErr SidFile)
  let tmp_data ←
    (if log_type = "raw" || !apply_bema then
      pygetN doc.data iStation
    else do
      let row ← pygetN doc.data iStation
      filter_buffer row doc.LogInterval : Except PyErr (List ℚ))
  let hdr ← create_header doc false log_type
  let _ := extended
  .ok (doc, hdr, doc.timestamp.zip tmp_data)

/-- Numpy in-place column addition `m[:, j] += v`: `v` must broadcast against
the column (the modelled regime is the equal-length case; other broadcasts
raise ValueError here, and are not exercised by the merge). -/
def npAddToCol (m : List (List ℚ)) (j : Nat) (v : List ℚ) :
    Except PyErr (List (List ℚ)) :=
  if v.length ≠ m.length then .error .valueError
  else (m.zip v).mapM (fun rv => do
    let x ← pygetN rv.1 j
    pysetN rv.1 j (x + rv.2))

/-- Numpy in-place addition `m += v` of a 1-D array to each row of a matrix
(used by the SID/SuperSID merge on the single-row `sid.data`); the modelled
regime is the equal-length broadcast. -/
def npAddRows (m : List (List ℚ)) (v : List ℚ) : Except PyErr (List (List ℚ)) :=
  m.mapM (fun row =>
    if row.length = v.length then .ok (List.zipWith (fun a b => a + b) row v)
    else .error .valueError)

/-- Numpy `m1 += m2` for equal-shape matrices (the two-SID merge). -/
def npAddMat (m1 m2 : List (List ℚ)) : List (List ℚ) :=
  List.zipWith (fun r1 r2 => List.zipWith (fun a b => a + b) r1 r2) m1 m2

/-- The two-SuperSID merge of __main__ (lines 370-372):
`for istation in range(len(sid1.stations)):
   sid1.data[:, istation] += sid2.get_station_data(sid1.stations[istation])`.
An `empty` result (call sign absent from sid2) or a whole-matrix result
broadcasts incompatibly and raises ValueError. -/
def mergeSuperSuper (sid1 sid2 : SidFile) : Except PyErr SidFile := do
  let data ← (List.range sid1.stations.length).foldlM (fun d istation => do
    let sd ← get_station_data sid2 (sid1.stations.getD istation "")
    match sd with
    | .vector v => npAddToCol d istation v
    | .empty => Except.error PyErr.valueError
    | .matrix _ => Except.error PyErr.valueError) sid1.data
  .ok { sid1 with data := data }

/-- The SID/SuperSID merge of __main__ (lines 377-390).  When the single
document's call sign is absent from the SuperSID document, an error message
is printed and nothing else happens; the result carries the message and both
documents as they stand.  When the station is found, the code adds the
matching data and then calls `sid.write_data_sid(station, fname)` without the
required `log_type` argument, which raises TypeError. -/
def mergeSidSuper (sid supersid : SidFile) :
    Except PyErr (Option String × SidFile × SidFile) := do
  let station ← pygetN sid.stations 0
  if ¬ supersid.stations.contains station then
    .ok (some ("Error: station " ++ station ++ " in not found in the superSId file. Cannot merge."),
         sid, supersid)
  else do
    let sd ← get_station_data supersid station
    let v ← (match sd with
      | .vector v => Except.ok v
      | _ => Except.error PyErr.valueError : Except PyErr (List ℚ))
    let _ ← npAddRows sid.data v
    .error .typeError

/-- The two-SID merge of __main__ (lines 392-395): `sid1.data += sid2.data`,
then sid1 (header and all) is written with write_data_sid using sid1's
logtype parameter and apply_bema False. -/
def mergeTwoSidAndWrite (sid1 sid2 : SidFile) :
    Except PyErr (SidFile × String × List (ℚ × ℚ)) := do
  let merged := { sid1 with data := npAddMat sid1.data sid2.data }
  let lt ← pgetE merged.sid_params "logtype"
  let st ← pygetN merged.stations 0
  write_data_sid merged (StationArg.str st) lt false

/-- A loaded two-station SuperSID document: stations A and B, three samples,
station-major rows [[1,2,3],[4,5,6]] (row 0 is station A's series). -/
def exSuper1 : SidFile :=
  ⟨[("stations", "A,B"), ("frequencies", "60000,70000")], true, ["A", "B"],
   ["60000", "70000"], 0, 5, false, [[1, 2, 3], [4, 5, 6]], [0, 5, 10]⟩

/-- A second two-station SuperSID document with the same stations and rows
[[10,20,30],[40,50,60]]. -/
def exSuper2 : SidFile :=
  ⟨[("stations", "A,B"), ("frequencies", "60000,70000")], true, ["A", "B"],
   ["60000", "70000"], 0, 5, false, [[10, 20, 30], [40, 50, 60]], [0, 5, 10]⟩

/-- C1: the claim says the series accessor resolves a station identifier to an
index, returns that ROW of `data`, and fails with NotFoundError when the call
sign is absent.  Evaluating `get_station_data` on a loaded two-station
document shows the code instead returns the numpy COLUMN `data[:, idx]` —
here `[2, 5]`, the per-station values at sample index 1, not station B's row
`[4, 5, 6]` — and returns the empty list, not an error, for an absent call
sign.  This contradicts the method's own docstring and the row indexing
`data[iStation]` used by write_data_sid. -/
theorem claim_C1_get_station_data_eval :
    get_station_data exSuper1 "B" = .ok (.vector [2, 5]) ∧
    exSuper1.data.getD 1 [] = [4, 5, 6] ∧
    ([(2 : ℚ), 5] : List ℚ) ≠ [4, 5, 6] ∧
    get_station_data exSuper1 "Z" = .ok .empty := by
  refine ⟨rfl, rfl, by decide, rfl⟩

/-- C2: the claim says the two-SuperSID merge adds document 2's matching
station series into ROW i of document 1 for each station i, which on these
inputs would give [[11,22,33],[44,55,66]].  Evaluating the merge loop shows
the code executes `sid1.data[:, istation] += sid2.data[:, idx]`, adding
per-sample COLUMNS at sample indices 0 and 1 and leaving sample 2 untouched:
the result is [[11,22,3],[44,55,6]]. -/
theorem claim_C2_supersid_merge_eval :
    mergeSuperSuper exSuper1 exSuper2 =
      .ok { exSuper1 with data := [[11, 22, 3], [44, 55, 6]] } ∧
    ([[(11 : ℚ), 22, 3], [44, 55, 6]] : List (List ℚ)) ≠ [[11, 22, 33], [44, 55, 66]] := by
  refine ⟨by with_unfolding_all rfl, by decide⟩

/-- C5 counterexample: the claim says the header parser splits each comment
line on the FIRST `=`, so that `# k = v1=v2` is stored as k -> v1=v2.  The
code splits on every `=` and only stores two-token splits, so this line is
consumed and counted but nothing is stored under k. -/
theorem claim_C5_counterexample :
    pget (read_header ["# k = v1=v2", "1, 2"]).1 "k" ≠ some "v1=v2" ∧
    pget (read_header ["# k = v1=v2", "1, 2"]).1 "k" = none ∧
    (read_header ["# k = v1=v2", "1, 2"]).2 = 1 := by
  refine ⟨by decide, rfl, rfl⟩

/-- C7 counterexample: the claim says the BEMA filter returns an output of
length exactly L for every input length L ge 1 and every wing w ge 0 (and
any interval and offset).  With w = 0 the windowed-minimum step takes `min`
of the empty slice `dstack[i:i]` and raises ValueError; with w = 5 on a
length-2 input the loop assigns `dmin[6]` in a length-6 array and raises
IndexError; with interval 0 and a nonzero offset the rotation mark
`gmt_offset * (60/data_interval) * 60` raises ZeroDivisionError.  In no case
is any sequence returned. -/
theorem claim_C7_counterexample :
    filter_buffer [(1 : ℚ)] 5 0 0 = .error .valueError ∧
    filter_buffer [(1 : ℚ), 2] 5 5 0 = .error .indexError ∧
    filter_buffer [(1 : ℚ), 2] 0 1 1 = .error .zeroDivisionError := by
  refine ⟨rfl, rfl, by with_unfolding_all rfl⟩

/-- An 80-sample averaged buffer holding 0,1,...,79. -/
def dav80 : List ℚ := (List.range 80).map (fun n => (n : ℚ))

/-- C8 counterexample: the claim says the rotation is by exactly
h * (3600 / interval) samples for EVERY interval, including intervals that do
not divide 60.  With interval 48 (3600/48 = 75) and offset 1 hour, the code
computes `gmt_mark = 1 * (60/48) * 60 = 60` by Python 2 floor division and
rotates by 60 samples, not 75. -/
theorem claim_C8_counterexample :
    gmt_rotate dav80 80 48 1 = .ok (dav80.drop 60 ++ dav80.take 60) ∧
    gmt_rotate dav80 80 48 1 ≠ .ok (dav80.drop 75 ++ dav80.take 75) := by
  refine ⟨rfl, by decide⟩

/-- Loaded single-station document A of the merge scenario: values 1, 2, 3. -/
def docA : SidFile :=
  ⟨[("site", "SA"), ("longitude", "1.0"), ("latitude", "2.0"), ("utc_offset", "+00:00"),
    ("timezone", "UTC"), ("utc_starttime", "2020-01-01 00:00:00"), ("log_interval", "5"),
    ("monitor_id", "42"), ("stationid", "S1"), ("frequency", "60000"), ("logtype", "raw")],
   false, ["S1"], ["60000"], 0, 5, false, [[1, 2, 3]], [0, 5, 10]⟩

/-- Loaded single-station document B of the merge scenario: values 0.5 each,
with different site and monitor header fields than A. -/
def docB : SidFile :=
  ⟨[("site", "SB"), ("longitude", "3.0"), ("latitude", "4.0"), ("utc_offset", "+00:00"),
    ("timezone", "UTC"), ("utc_starttime", "2020-01-01 00:00:00"), ("log_interval", "5"),
    ("monitor_id", "43"), ("stationid", "S1"), ("frequency", "60000"), ("logtype", "raw")],
   false, ["S1"], ["60000"], 0, 5, false, [[1/2, 1/2, 1/2]], [0, 5, 10]⟩

/-- The SID header serialized from document A's parameters. -/
def headerA : String :=
  "# Site = SA\n# Longitude = 1.0\n# Latitude = 2.0\n#\n# UTC_Offset = +00:00\n# TimeZone = UTC\n#\n# UTC_StartTime = 2020-01-01 00:00:00\n# LogInterval = 5\n# LogType = raw\n# MonitorID = 42\n# StationID = S1\n# Frequency = 60000\n"

/-- The SID header serialized from document B's parameters. -/
def headerB : String :=
  "# Site = SB\n# Longitude = 3.0\n# Latitude = 4.0\n#\n# UTC_Offset = +00:00\n# TimeZone = UTC\n#\n# UTC_StartTime = 2020-01-01 00:00:00\n# LogInterval = 5\n# LogType = raw\n# MonitorID = 43\n# StationID = S1\n# Frequency = 60000\n"

/-- C3: merging the two single-station documents adds the value rows
element-wise with no call-sign check ([1,2,3] + [0.5,0.5,0.5] =
[1.5,2.5,3.5]) and the written file carries document A's header (A's site,
coordinates and monitor id), not document B's. -/
theorem claim_C3_sid_merge :
    mergeTwoSidAndWrite docA docB =
      .ok ({ docA with data := [[3/2, 5/2, 7/2]] }, headerA,
           [((0 : ℚ), (3/2 : ℚ)), (5, 5/2), (10, 7/2)]) ∧
    create_header docA false "raw" = .ok headerA ∧
    create_header docB false "raw" = .ok headerB ∧
    headerB ≠ headerA := by
  refine ⟨by with_unfolding_all rfl, by with_unfolding_all rfl, by with_unfolding_all rfl,
    by decide⟩

/-- C4: when the single-station document's call sign is absent from the
multi-station partner, the merge reports the station-not-found error and
returns with both documents exactly as they were: no mutation of data,
timestamps or parameters of either document. -/
theorem claim_C4_not_found_no_mutation (sid supersid : SidFile) (st : String)
    (h0 : pygetN sid.stations 0 = .ok st)
    (habs : supersid.stations.contains st = false) :
    mergeSidSuper sid supersid =
      .ok (some ("Error: station " ++ st ++ " in not found in the superSId file. Cannot merge."),
           sid, supersid) := by
  unfold mergeSidSuper
  rw [h0, ebind_ok]
  rw [if_pos (show ¬ (supersid.stations.contains st = true) by
    intro hc; rw [habs] at hc; exact Bool.noConfusion hc)]

/-- A loaded single-station document for station X1, absent from exSuper1. -/
def exSid4 : SidFile :=
  ⟨[("stationid", "X1"), ("frequency", "50000")], false, ["X1"], ["50000"], 0, 5, false,
   [[1, 2]], [0, 5]⟩

/-- Witness for C4 at a concrete pair of documents. -/
theorem claim_C4_witness :
    mergeSidSuper exSid4 exSuper1 =
      .ok (some "Error: station X1 in not found in the superSId file. Cannot merge.",
           exSid4, exSuper1) :=
  claim_C4_not_found_no_mutation exSid4 exSuper1 "X1" (by rfl) (by rfl)

theorem read_header_aux_spec (lines : List String) : ∀ (p : Params) (n : Nat),
    read_header_aux p n lines =
      ((lines.takeWhile startsHash).foldl headerStep p,
       n + (lines.takeWhile startsHash).length) := by
  induction lines with
  | nil => intro p n; simp [read_header_aux, List.takeWhile]
  | cons l rest ih =>
    intro p n
    rw [read_header_aux]
    by_cases h : startsHash l
    · rw [if_pos h, ih, List.takeWhile_cons_of_pos h]
      simp only [List.foldl_cons, List.length_cons, Prod.mk.injEq]
      exact ⟨trivial, by omega⟩
    · rw [if_neg h, List.takeWhile_cons_of_neg h]
      simp [List.takeWhile]

/-- C5 (amended): the header parser consumes exactly the longest prefix of
`#` lines, records their count, and folds the store step over them; the store
step splits on EVERY `=` and stores lower(trim(key)) -> trim(value) only when
the split yields exactly two parts, so a line whose value contains `=` (three
or more parts) is consumed and counted but not stored, as the concrete run on
["# k = v1=v2", "# a = b", "1, 2"] shows. -/
theorem claim_C5_header_parse :
    (∀ lines : List String,
      read_header lines = (headerParamsSpec lines, (lines.takeWhile startsHash).length)) ∧
    read_header ["# k = v1=v2", "# a = b", "1, 2"] = ([("a", "b")], 2) := by
  constructor
  · intro lines
    unfold read_header headerParamsSpec
    rw [read_header_aux_spec]
    simp
  · rfl

/-- C6: for a single-station, non-extended file loaded with
force_read_timestamp = False whose line count after the header equals
(60*60*24) / LogInterval (Python 2 floor division), read_data takes the fast
path: the data matrix is exactly the value column (column 1) of the data
lines, and the timestamps are generated uniformly from startTime and
LogInterval — never parsed from the file.  The hypotheses are precisely the
branch conditions of lines 161-162, so the row-count check together with the
two flags alone decides the path. -/
theorem claim_C6_fast_path (g : TsFormat) (info : HeaderInfo) (lines : List String)
    (headerNbLines : Nat) (l0 : String) (g' : TsFormat) (out : IngestOut) (gout : TsFormat)
    (hsup : info.isSuperSID = false)
    (hI : info.LogInterval ≠ 0)
    (hl0 : pygetN lines headerNbLines = .ok l0)
    (hdet : detectFormat g ((splitOnC ',' l0).headD "") = .ok (false, g'))
    (hcount : (lines.length : ℤ) - (headerNbLines : ℤ) = Int.fdiv (60 * 60 * 24) info.LogInterval)
    (hw : read_data g info lines headerNbLines false = .ok (out, gout)) :
    ∃ vals, sidValueColumn (dataLines lines) = .ok vals ∧
      out.data = [vals] ∧
      out.timestamp = generate_timestamp info.startTime info.LogInterval vals.length ∧
      out.is_extended = false ∧ gout = g' := by
  unfold read_data at hw
  rw [hl0, ebind_ok, hdet, ebind_ok] at hw
  rw [hsup] at hw
  simp only [Bool.false_and, Bool.false_eq_true, if_false] at hw
  rw [if_neg hI, ebind_ok] at hw
  rw [hcount] at hw
  simp only [bne_self_eq_false, Bool.or_self, Bool.or_false, Bool.false_eq_true, if_false] at hw
  cases hvc : sidValueColumn (dataLines lines) with
  | error e =>
    rw [hvc, ebind_err] at hw
    exact absurd hw (by simp)
  | ok vals =>
    rw [hvc, ebind_ok] at hw
    have hg : pygetN [vals] 0 = .ok vals := by simp [pygetN]
    rw [hg, ebind_ok] at hw
    have hout := Except.ok.inj hw
    have h1 : (⟨[vals], generate_timestamp info.startTime info.LogInterval vals.length,
        false⟩ : IngestOut) = out := congrArg Prod.fst hout
    have h2 : g' = gout := congrArg Prod.snd hout
    subst h1
    subst h2
    exact ⟨vals, rfl, rfl, rfl, rfl, rfl⟩

/-- Header shell of a single-station document with LogInterval 21600 s. -/
def info6 : HeaderInfo := ⟨false, ["S1"], ["60000"], [], 0, 21600⟩

/-- A complete one-day classic SID log at 21600 s: 86400/21600 = 4 rows. -/
def lines6 : List String :=
  ["2020-01-01 00:00:00, 1.5", "2020-01-01 06:00:00, 2.5",
   "2020-01-01 12:00:00, 3.5", "2020-01-01 18:00:00, 4.5"]

/-- The ingest result of the fast path on lines6. -/
def out6 : IngestOut :=
  ⟨[[3/2, 5/2, 7/2, 9/2]], [0, 21600, 43200, 64800], false⟩

theorem bema_dstack_ok (raw : List ℚ) (w : Nat) (hw1 : 1 ≤ w) (hwL : w ≤ raw.length) :
    ∃ ds, bema_dstack raw w = .ok ds ∧ ds.length = raw.length + 2 * w := by
  have hL : 1 ≤ raw.length := le_trans hw1 hwL
  have hne : raw ≠ [] := by
    intro hc
    rw [hc] at hL
    exact absurd hL (by simp)
  obtain ⟨r0, hr0⟩ := pyget_ok raw 0 (by omega) (by omega)
  obtain ⟨rl, hrl⟩ := pyget_neg_one_ok raw hne
  have hmain : bema_dstack raw w = .ok (pyfill (pyfill
      (pyslice raw ((raw.length : ℤ) - w) raw.length ++ pyslice raw 0 raw.length ++
        pyslice raw 0 w) 0 w r0) ((raw.length : ℤ) + w) ((raw.length : ℤ) + 2 * w) rl) := by
    unfold bema_dstack
    rw [hr0, ebind_ok, hrl, ebind_ok]
  refine ⟨_, hmain, ?_⟩
  rw [length_pyfill, length_pyfill, List.length_append, List.length_append,
    length_pyslice, length_pyslice, length_pyslice, sliceBound_zero, sliceBound_len,
    sliceBound_of_le _ _ (by omega) (by omega), sliceBound_of_le _ _ (by omega) (by omega)]
  omega

theorem bema_dmin_ok (dstack : List ℚ) (w L : Nat) (hds : dstack.length = L + 2 * w)
    (hw1 : 1 ≤ w) (hL : 1 ≤ L) :
    ∃ dm, bema_dmin dstack w L = .ok dm ∧ dm.length = L + 2 * w := by
  have hrep : (List.replicate dstack.length (0 : ℚ)).length = L + 2 * w := by
    rw [List.length_replicate, hds]
  obtain ⟨dm1, hmin, hminlen⟩ := minLoop_ok dstack w (List.range' w L)
    (List.replicate dstack.length 0) (by
      intro i hi
      have hmem : w ≤ i ∧ i < w + L := by
        have := List.mem_range'_1.1 hi
        omega
      refine ⟨by omega, ?_⟩
      rw [sliceBound_of_le _ _ (by omega) (by omega), sliceBound_of_le _ _ (by omega) (by omega)]
      omega)
  rw [hrep] at hminlen
  obtain ⟨dw, hdw⟩ := pyget_ok dm1 (w : ℤ) (by omega) (by omega)
  obtain ⟨de, hde⟩ := pyget_ok (pyfill dm1 0 w dw) ((L : ℤ) + w - 1) (by omega) (by
    rw [length_pyfill]
    omega)
  have hmain : bema_dmin dstack w L = .ok (pyfill (pyfill dm1 0 w dw)
      ((L : ℤ) + w) ((L : ℤ) + 2 * w) de) := by
    unfold bema_dmin
    rw [hmin, ebind_ok, hdw, ebind_ok]
    simp only [hde, ebind_ok]
  refine ⟨_, hmain, ?_⟩
  rw [length_pyfill, length_pyfill]
  exact hminlen

/-- C7 (amended): for every input of length L ge 1 and every wing w in the
range 1 le w le L, the BEMA filter succeeds and the output has length exactly
L, for any whole-hour time-zone offset and any sample interval that is
nonzero whenever the offset is nonzero.  (The original claim also allowed
w = 0, where the filter raises ValueError, and w greater than L, where it can
raise IndexError or return a wrong-length buffer; and with a nonzero offset
an interval of 0 raises ZeroDivisionError at the rotation mark — see the
counterexample.) -/
theorem claim_C7_length (raw : List ℚ) (I g : ℤ) (w : Nat)
    (hw1 : 1 ≤ w) (hwL : w ≤ raw.length) (hIg : g = 0 ∨ I ≠ 0) :
    ∃ out, filter_buffer raw I w g = .ok out ∧ out.length = raw.length := by
  have hL : 1 ≤ raw.length := le_trans hw1 hwL
  obtain ⟨ds, hds, hdslen⟩ := bema_dstack_ok raw w hw1 hwL
  obtain ⟨dm, hdm, hdmlen⟩ := bema_dmin_ok ds w raw.length hdslen hw1 hL
  have hmov : (movavg dm (2 * w + 1)).length = raw.length := by
    rw [length_movavg dm (2 * w + 1) (by omega)]
    omega
  by_cases hg : g = 0
  · have hmain : filter_buffer raw I w g = .ok (movavg dm (2 * w + 1)) := by
      unfold filter_buffer
      rw [hds, ebind_ok, hdm, ebind_ok, if_pos hg]
      rfl
    exact ⟨_, hmain, hmov⟩
  · have hI : I ≠ 0 := hIg.resolve_left hg
    have hmain : filter_buffer raw I w g =
        gmt_rotate (movavg dm (2 * w + 1)) (raw.length : ℤ) I g := by
      unfold filter_buffer
      rw [hds, ebind_ok, hdm, ebind_ok, if_neg hg]
    obtain ⟨out, hrot, hlen⟩ := gmt_rotate_ok (movavg dm (2 * w + 1)) I g hI
    have hcast : ((raw.length : ℤ)) = ((movavg dm (2 * w + 1)).length : ℤ) := by
      rw [hmov]
    refine ⟨out, ?_, by rw [hlen, hmov]⟩
    rw [hmain, hcast, hrot]

/-- Witness for C7 at raw = [1,2,3], wing 1, interval 5, offset 0: the filter
returns a length-3 buffer. -/
theorem claim_C7_witness :
    ∃ out, filter_buffer [(1 : ℚ), 2, 3] 5 1 0 = .ok out ∧ out.length = 3 :=
  claim_C7_length [(1 : ℚ), 2, 3] 5 0 1 (by decide) (by decide) (Or.inl rfl)

/-- Witness for C6 at a concrete complete one-day file. -/
theorem claim_C6_witness :
    ∃ vals, sidValueColumn (dataLines lines6) = .ok vals ∧
      out6.data = [vals] ∧
      out6.timestamp = generate_timestamp info6.startTime info6.LogInterval vals.length ∧
      out6.is_extended = false ∧ TsFormat.classic = TsFormat.classic :=
  claim_C6_fast_path TsFormat.classic info6 lines6 0 "2020-01-01 00:00:00, 1.5"
    TsFormat.classic out6 TsFormat.classic
    (by rfl) (by decide) (by rfl) (by with_unfolding_all rfl) (by decide)
    (by with_unfolding_all rfl)

theorem bind_eq_ok {ε α β : Type} {e : Except ε α} {f : α → Except ε β} {b : β}
    (h : (e >>= f) = .ok b) : ∃ a, e = .ok a ∧ f a = .ok b := by
  cases e with
  | error e => rw [ebind_err] at h; exact absurd h (by simp)
  | ok a => exact ⟨a, rfl, h⟩

theorem pyslice_drop {α : Type} (xs : List α) (a : ℤ) (h0 : 0 ≤ a)
    (hle : a ≤ (xs.length : ℤ)) : pyslice xs a (xs.length : ℤ) = xs.drop a.toNat := by
  unfold pyslice
  rw [sliceBound_len, sliceBound_of_le _ _ h0 hle, List.take_length]

theorem pyslice_take {α : Type} (xs : List α) (a : ℤ) (h0 : 0 ≤ a)
    (hle : a ≤ (xs.length : ℤ)) : pyslice xs 0 a = xs.take a.toNat := by
  unfold pyslice
  rw [sliceBound_zero, sliceBound_of_le _ _ h0 hle, List.drop_zero]

/-- C8 (amended): the rotation step computes
`gmt_mark = gmt_offset * (60 / interval) * 60` with Python 2 floor division,
which equals `gmt_offset * (3600 / interval)` exactly when the interval
divides 60; under that hypothesis (and the mark within the buffer) the result
is the circular left rotation by that many samples.  For intervals that do
not divide 60 the two quantities differ — see the counterexample with
interval 48. -/
theorem claim_C8_rotation (dav : List ℚ) (I h : ℤ) (hI : 0 < I) (hdvd : I ∣ 60)
    (hh : 0 ≤ h) (hbound : h * (3600 / I) ≤ (dav.length : ℤ)) :
    gmt_rotate dav dav.length I h =
      .ok (dav.drop (h * (3600 / I)).toNat ++ dav.take (h * (3600 / I)).toNat) := by
  obtain ⟨c, hc⟩ := hdvd
  have hc0 : 0 < c := by nlinarith
  have hfd : Int.fdiv 60 I = c := by
    rw [hc]
    exact Int.mul_fdiv_cancel_left c (by omega)
  have hdd : (3600 : ℤ) / I = c * 60 := by
    have h36 : (3600 : ℤ) = I * (c * 60) := by rw [← mul_assoc, ← hc]; norm_num
    rw [h36]
    exact Int.mul_ediv_cancel_left _ (by omega)
  have hmark : h * Int.fdiv 60 I * 60 = h * (3600 / I) := by
    rw [hfd, hdd]
    ring
  have hm0 : 0 ≤ h * ((3600 : ℤ) / I) := by
    have hq : 0 ≤ (3600 : ℤ) / I := by rw [hdd]; positivity
    exact mul_nonneg hh hq
  unfold gmt_rotate
  rw [if_neg (by omega : ¬ I = 0), hmark]
  simp only [pyslice_drop dav _ hm0 hbound, pyslice_take dav _ hm0 hbound]

/-- A 61-sample averaged buffer holding 0,1,...,60. -/
def dav61 : List ℚ := (List.range 61).map (fun n => (n : ℚ))

/-- Witness for C8 at interval 60 (which divides 60) and offset 1 hour:
rotation by 1 * (3600/60) = 60 samples. -/
theorem claim_C8_witness :
    gmt_rotate dav61 dav61.length 60 1 =
      .ok (dav61.drop ((1 * ((3600 : ℤ) / 60)).toNat) ++
        dav61.take ((1 * ((3600 : ℤ) / 60)).toNat)) :=
  claim_C8_rotation dav61 60 1 (by decide) ⟨1, by norm_num⟩ (by decide) (by decide)

theorem loadFile_flag_irrelevant (g1 g2 : TsFormat) (lines : List String) (force : Bool)
    (utcnowDate : String) :
    loadFile g1 lines force utcnowDate = loadFile g2 lines force utcnowDate := rfl

/-- C9: the active timestamp format is process-wide shared state in the
source (the class attribute `SidFile._timestamp_format`), but every load
overwrites it (control_header line 101, then detection lines 136-144) before
any parse reads it, so the parsed document is identical whether the document
is processed from any initial flag value or right after a successful load of
a document of the other variant: the flag a previous load leaves behind
cannot influence the next document's parse. -/
theorem claim_C9_format_isolation (g0 gX : TsFormat) (prevLines : List String)
    (prevForce : Bool) (prevDate : String) (lines : List String) (force : Bool)
    (utcnowDate : String) (d : SidFile) (g' : TsFormat)
    (hprev : loadFile g0 prevLines prevForce prevDate = .ok (d, g')) :
    (loadFile g' lines force utcnowDate).map Prod.fst =
      (loadFile gX lines force utcnowDate).map Prod.fst := by
  rw [loadFile_flag_irrelevant g' gX]

/-- An extended single-station file (fractional-second timestamps). -/
def prevLines9 : List String :=
  ["# StationID = S1", "# Frequency = 60000", "# UTC_StartTime = 2020-01-01 00:00:00",
   "# Log_Interval = 5", "2020-01-01 00:00:00.500000, 1.5"]

/-- A classic single-station file processed after the extended one. -/
def curLines9 : List String :=
  ["# StationID = S2", "# Frequency = 70000", "# UTC_StartTime = 2020-01-02 00:00:00",
   "# Log_Interval = 5", "2020-01-02 00:00:00, 2.5", "2020-01-02 00:00:05, 3.5"]

/-- The document loaded from prevLines9 (the load leaves the shared format
flag set to extended). -/
def prevDoc9 : SidFile :=
  ⟨[("log_interval", "5"), ("utc_starttime", "2020-01-01 00:00:00"), ("frequency", "60000"),
    ("stationid", "S1")], false, ["S1"], ["60000"], 64927180800, 5, true, [[3/2]],
   [129854361601/2]⟩

/-- Witness for C9: loading the extended file leaves the flag extended, and
loading the classic file afterwards (initial flag extended) parses to the
same document as with the classic initial flag. -/
theorem claim_C9_witness :
    (loadFile TsFormat.classic prevLines9 true "2020-06-01").map Prod.snd =
      Except.ok TsFormat.extended ∧
    (loadFile TsFormat.extended curLines9 false "2020-06-01").map Prod.fst =
      (loadFile TsFormat.classic curLines9 false "2020-06-01").map Prod.fst := by
  constructor
  · with_unfolding_all rfl
  · exact claim_C9_format_isolation TsFormat.classic TsFormat.classic prevLines9 true
      "2020-06-01" curLines9 false "2020-06-01" prevDoc9 TsFormat.extended
      (by with_unfolding_all rfl)

/-- C10: writing a multi-station document in single-station format mutates
the document's parameters as a side effect — `stationid` becomes the selected
station's call sign and `frequency` that station's frequency — while `data`,
`timestamp`, the station lists, all scalar fields and every other parameter
entry are unchanged. -/
theorem claim_C10_write_mutation (doc : SidFile) (station : StationArg)
    (log_type : String) (apply_bema extended : Bool) (i : Nat) (d' : SidFile)
    (hdr : String) (rows : List (ℚ × ℚ))
    (hsup : doc.isSuperSID = true)
    (hidx : get_station_index doc station = .ok i)
    (hi1 : i < doc.stations.length)
    (hi2 : i < doc.frequencies.length)
    (hw : write_data_sid doc station log_type apply_bema extended = .ok (d', hdr, rows)) :
    d'.data = doc.data ∧ d'.timestamp = doc.timestamp ∧ d'.stations = doc.stations ∧
    d'.frequencies = doc.frequencies ∧ d'.isSuperSID = doc.isSuperSID ∧
    d'.startTime = doc.startTime ∧ d'.LogInterval = doc.LogInterval ∧
    d'.is_extended = doc.is_extended ∧
    pget d'.sid_params "stationid" = some (doc.stations.getD i "") ∧
    pget d'.sid_params "frequency" = some (doc.frequencies.getD i "") ∧
    (∀ k, k ≠ "stationid" → k ≠ "frequency" →
      pget d'.sid_params k = pget doc.sid_params k) := by
  have hst : pygetN doc.stations i = .ok (doc.stations.get ⟨i, hi1⟩) := by
    simp [pygetN, hi1]
  have hfq : pygetN doc.frequencies i = .ok (doc.frequencies.get ⟨i, hi2⟩) := by
    simp [pygetN, hi2]
  unfold write_data_sid at hw
  rw [hidx, ebind_ok, if_pos hsup, hst, ebind_ok, hfq, ebind_ok, ebind_ok] at hw
  obtain ⟨tmp, hE1, hw2⟩ := bind_eq_ok hw
  obtain ⟨hv, hE2, hw3⟩ := bind_eq_ok hw2
  have hout := Except.ok.inj hw3
  have hd' : ({ doc with sid_params := pinsert (pinsert doc.sid_params "stationid"
      (doc.stations.get ⟨i, hi1⟩)) "frequency" (doc.frequencies.get ⟨i, hi2⟩) } : SidFile)
      = d' := congrArg (fun t => t.1) hout
  have hgetst : doc.stations.getD i "" = doc.stations.get ⟨i, hi1⟩ := by
    rw [List.getD, List.get?_eq_get hi1]
    rfl
  have hgetfq : doc.frequencies.getD i "" = doc.frequencies.get ⟨i, hi2⟩ := by
    rw [List.getD, List.get?_eq_get hi2]
    rfl
  subst hd'
  refine ⟨rfl, rfl, rfl, rfl, rfl, rfl, rfl, rfl, ?_, ?_, ?_⟩
  · rw [pget_pinsert_other _ _ _ _ (by decide), pget_pinsert_same, hgetst]
  · rw [pget_pinsert_same, hgetfq]
  · intro k hk1 hk2
    rw [pget_pinsert_other _ _ _ _ hk2, pget_pinsert_other _ _ _ _ hk1]

/-- A multi-station document with full header parameters, for the C10 witness. -/
def doc10 : SidFile :=
  ⟨[("site", "SC"), ("longitude", "1.0"), ("latitude", "2.0"), ("utc_offset", "+00:00"),
    ("timezone", "UTC"), ("utc_starttime", "2020-01-01 00:00:00"), ("log_interval", "5"),
    ("monitor_id", "44"), ("stations", "A,B"), ("frequencies", "60000,70000")],
   true, ["A", "B"], ["60000", "70000"], 0, 5, false, [[1, 2, 3], [4, 5, 6]], [0, 5, 10]⟩

/-- The document doc10 after the write's side effect on its parameters. -/
def doc10M : SidFile :=
  ⟨pinsert (pinsert doc10.sid_params "stationid" "B") "frequency" "70000",
   true, ["A", "B"], ["60000", "70000"], 0, 5, false, [[1, 2, 3], [4, 5, 6]], [0, 5, 10]⟩

/-- The SID header the write serializes for station B of doc10. -/
def hdr10 : String :=
  "# Site = SC\n# Longitude = 1.0\n# Latitude = 2.0\n#\n# UTC_Offset = +00:00\n# TimeZone = UTC\n#\n# UTC_StartTime = 2020-01-01 00:00:00\n# LogInterval = 5\n# LogType = raw\n# MonitorID = 44\n# StationID = B\n# Frequency = 70000\n"

/-- Witness for C10: writing station B of doc10 sets stationid to B and
frequency to 70000 and leaves everything else unchanged. -/
theorem claim_C10_witness :
    ∃ d' hdr rows, write_data_sid doc10 (StationArg.str "B") "raw" true false =
      .ok (d', hdr, rows) ∧
    d'.data = doc10.data ∧ d'.timestamp = doc10.timestamp ∧
    pget d'.sid_params "stationid" = some (doc10.stations.getD 1 "") ∧
    pget d'.sid_params "frequency" = some (doc10.frequencies.getD 1 "") ∧
    pget d'.sid_params "site" = pget doc10.sid_params "site" := by
  have hw : write_data_sid doc10 (StationArg.str "B") "raw" true false =
      .ok (doc10M, hdr10, [((0 : ℚ), (4 : ℚ)), (5, 5), (10, 6)]) := by
    with_unfolding_all rfl
  have hres := claim_C10_write_mutation doc10 (StationArg.str "B") "raw" true false 1 _ _ _
    (by rfl) (by rfl) (by decide) (by decide) hw
  exact ⟨_, _, _, hw, hres.1, hres.2.1, hres.2.2.2.2.2.2.2.2.1, hres.2.2.2.2.2.2.2.2.2.1,
    hres.2.2.2.2.2.2.2.2.2.2 "site" (by decide) (by decide)⟩

end SuperSid
